import Mathlib

/-!
Shallow embedding of the swflcoders chat backend (Rust) for specification
checking.  The embedded code lives in:

* `src/packages/backend/src/lib.rs` — validation, room/message handlers,
  `MetricsHelper`;
* `src/packages/backend/src/lambdas/ws_broadcast.rs` — the broadcast
  dispatcher `process_record`;
* `src/packages/backend/src/lambdas/ws_connect.rs` and
  `ws_disconnect.rs` — the connection lifecycle handlers.

Conventions of the embedding:

* Rust `String`/`&str` is Lean `String`; `str::trim` (Unicode
  white-space) and `str::len` (UTF-8 byte count) are modelled explicitly
  below, since `String.length` counts characters.
* DynamoDB tables are lists of record structures; a `query` on a
  partition key is `List.filter`, ascending sort-key order is modelled by
  `List.insertionSort` on the sort key, `limit` is `List.take`, and
  `delete_item` removes every record with the given primary key.
* Fallible store calls and delivery attempts are oracles passed as
  parameters (e.g. a function `String → SendResult` standing for the
  API-Gateway `post_to_connection` call).
* `chrono::Utc::now()` and `Uuid::new_v4()` are parameters (`now_ms`,
  `message_id`).
-/

namespace Swfl

instance {ε α : Type} [DecidableEq ε] [DecidableEq α] : DecidableEq (Except ε α) :=
  fun a b =>
    match a, b with
    | .ok x, .ok y => decidable_of_iff (x = y) (by simp)
    | .error x, .error y => decidable_of_iff (x = y) (by simp)
    | .ok _, .error _ => isFalse (by simp)
    | .error _, .ok _ => isFalse (by simp)

/-- Rust `char::is_whitespace`: the Unicode `White_Space` property. -/
def rustIsWhitespace (c : Char) : Bool :=
  let n := c.toNat
  decide ((0x9 ≤ n ∧ n ≤ 0xD) ∨ n = 0x20 ∨ n = 0x85 ∨ n = 0xA0 ∨ n = 0x1680 ∨
    (0x2000 ≤ n ∧ n ≤ 0x200A) ∨ n = 0x2028 ∨ n = 0x2029 ∨ n = 0x202F ∨
    n = 0x205F ∨ n = 0x3000)

/-- Trim leading and trailing Rust whitespace from a character list. -/
def rustTrimList (l : List Char) : List Char :=
  ((l.dropWhile rustIsWhitespace).reverse.dropWhile rustIsWhitespace).reverse

/-- Rust `str::trim`. -/
def rustTrim (s : String) : String :=
  String.mk (rustTrimList s.data)

/-- Number of bytes of the UTF-8 encoding of a scalar value. -/
def utf8CharLen (c : Char) : Nat :=
  if c.toNat < 0x80 then 1
  else if c.toNat < 0x800 then 2
  else if c.toNat < 0x10000 then 3
  else 4

/-- Rust `str::len`: the UTF-8 byte length. -/
def utf8Len (s : String) : Nat :=
  (s.data.map utf8CharLen).sum

/-- ASCII model of Rust `str::to_lowercase` (the room ids in play are
ASCII; Unicode special casing is out of scope). -/
def rustToLowercase (s : String) : String :=
  String.mk (s.data.map Char.toLower)

/-! ### Validation (`lib.rs`, `handlers::validate_*`) -/

/-- `handlers::validate_username` (`lib.rs:29-38`). -/
def validate_username (username : String) : Except String String :=
  let trimmed := rustTrim username
  if trimmed.data.isEmpty then
    .error "Username cannot be empty"
  else if utf8Len trimmed > 50 then
    .error "Username cannot be longer than 50 characters"
  else
    .ok trimmed

/-- `handlers::validate_message_text` (`lib.rs:40-49`). -/
def validate_message_text (message_text : String) : Except String String :=
  let trimmed := rustTrim message_text
  if trimmed.data.isEmpty then
    .error "Message text cannot be empty"
  else if utf8Len trimmed > 500 then
    .error "Message text cannot be longer than 500 characters"
  else
    .ok trimmed

/-- `handlers::validate_room_id` (`lib.rs:51-57`). -/
def validate_room_id (room_id : String) : Except String String :=
  let trimmed := rustTrim room_id
  if trimmed.data.isEmpty then
    .error "Room ID cannot be empty"
  else
    .ok (rustToLowercase trimmed)

/-! ### Room and message store model (`lib.rs`, `handlers`) -/

/-- A record of the rooms table, as written by `ensure_room_exists`
(`lib.rs:92-99`).  `created_at` stands for both the ISO string and the
epoch attribute, as a millisecond-precision timestamp. -/
structure RoomItem where
  id : String
  name : String
  created_at : Int
deriving DecidableEq, Repr

/-- A record of the messages table, as written by `post_message_handler`
(`lib.rs:136-151`).  `user_id` is optional because `get_messages_handler`
defaults it when absent (older records); `ts` is the numeric sort-key
attribute (millisecond epoch). -/
structure MsgItem where
  id : String
  room_id : String
  user_id : Option String
  username : String
  message_text : String
  ts : Int
  client_message_id : Option String
deriving DecidableEq, Repr

/-- `types::ChatMessage` as used by the handlers; `created_at` is the
millisecond-epoch timestamp carried by `chrono::DateTime`. -/
structure ChatMessage where
  id : String
  room_id : String
  user_id : String
  username : String
  message_text : String
  created_at : Int
  client_message_id : Option String
deriving DecidableEq, Repr

/-- `types::SendMessageRequest`. -/
structure SendMessageRequest where
  room_id : String
  user_id : String
  username : String
  message_text : String
  client_message_id : Option String
deriving DecidableEq, Repr

/-- `types::GetMessagesResponse`. -/
structure GetMessagesResponse where
  room_id : String
  messages : List ChatMessage
deriving DecidableEq, Repr

/-- `handlers::ensure_room_exists` (`lib.rs:69-115`).

The store is read once (`get_item`) and conditionally written once
(`put_item` with `attribute_not_exists(id)`).  The two table parameters
are the rooms-table contents at those two instants; a concurrent creator
is an insert happening between them.  The conditional write fails exactly
when the id exists at put time, and the code maps that failure — like any
other put failure — to an error (`lib.rs:107`). -/
def ensure_room_exists (roomsAtGet roomsAtPut : List RoomItem) (room_id : String)
    (now : Int) : Except String (List RoomItem) :=
  if roomsAtGet.any (fun r => r.id == room_id) then
    .ok roomsAtPut
  else
    let room_name := if room_id == "general" then "General" else room_id
    if roomsAtPut.any (fun r => r.id == room_id) then
      .error "Failed to create room: ConditionalCheckFailedException"
    else
      .ok (roomsAtPut ++ [{ id := room_id, name := room_name, created_at := now }])

/-- `handlers::post_message_handler` (`lib.rs:117-175`).

`message_id` stands for `Uuid::new_v4()` and `now_ms` for
`Utc::now().timestamp_millis()`.  Returns the response message together
with the rooms table and the messages table after the call. -/
def post_message_handler (roomsAtGet roomsAtPut : List RoomItem)
    (msgs : List MsgItem) (request : SendMessageRequest)
    (message_id : String) (now_ms : Int) :
    Except String (ChatMessage × List RoomItem × List MsgItem) := do
  let room_id ← validate_room_id request.room_id
  let user_id := request.user_id
  let username ← validate_username request.username
  let message_text ← validate_message_text request.message_text
  let rooms ← ensure_room_exists roomsAtGet roomsAtPut room_id now_ms
  let item : MsgItem :=
    { id := message_id, room_id := room_id, user_id := some user_id,
      username := username, message_text := message_text, ts := now_ms,
      client_message_id := request.client_message_id }
  let message : ChatMessage :=
    { id := message_id, room_id := room_id, user_id := user_id,
      username := username, message_text := message_text,
      created_at := now_ms, client_message_id := request.client_message_id }
  .ok (message, rooms, msgs ++ [item])

/-- Ascending order on the messages table's numeric sort key `ts`. -/
def tsLe (a b : MsgItem) : Prop := a.ts ≤ b.ts

instance : DecidableRel tsLe := fun a b => Int.decLe a.ts b.ts

instance : IsTotal MsgItem tsLe := ⟨fun a b => Int.le_total a.ts b.ts⟩

instance : IsTrans MsgItem tsLe := ⟨fun _ _ _ => Int.le_trans⟩

/-- The DynamoDB `query` of `get_messages_handler` (`lib.rs:185-194`):
partition `room_id = :room_id`, ascending sort-key order
(`scan_index_forward(true)`), `limit(25)`. -/
def queryMessages (msgs : List MsgItem) (room_id : String) : List MsgItem :=
  (List.insertionSort tsLe (msgs.filter (fun m => m.room_id == room_id))).take 25

/-- The `filter_map` conversion of a stored item to a `ChatMessage`
(`lib.rs:200-224`); `user_id` defaults to `"unknown"` when absent. -/
def itemToChatMessage (room_id : String) (item : MsgItem) : ChatMessage :=
  { id := item.id, room_id := room_id,
    user_id := item.user_id.getD "unknown",
    username := item.username, message_text := item.message_text,
    created_at := item.ts, client_message_id := item.client_message_id }

/-- `handlers::get_messages_handler` (`lib.rs:177-231`). -/
def get_messages_handler (msgs : List MsgItem) (room_id : String) :
    Except String GetMessagesResponse := do
  let room_id ← validate_room_id room_id
  let items := queryMessages msgs room_id
  let messages := items.map (itemToChatMessage room_id)
  .ok { room_id := room_id, messages := messages }

/-! ### Metrics (`lib.rs`, `MetricsHelper`) -/

/-- `MetricsHelper::emit_message_broadcast` (`lib.rs:353-376`): the
triple (attempts, successes, failures) emitted for a room, with
`failures = connection_count - successful_sends` in `i32` arithmetic. -/
def emit_message_broadcast (room_id : String) (connection_count successful_sends : Int) :
    String × Int × Int × Int :=
  (room_id, connection_count, successful_sends, connection_count - successful_sends)

/-! ### Broadcast dispatcher (`ws_broadcast.rs`) -/

/-- `AttributeValueWrapper` (`ws_broadcast.rs:50-56`): a typed scalar
from the stream image.  The numeric variant holds the parsed `i64`
(`n.parse::<i64>()`); a numeric string that fails to parse is folded into
`none`. -/
structure AttrWrapper where
  s : Option String
  n : Option Int
deriving DecidableEq, Repr

/-- `DynamoDBStreamRecord` (`ws_broadcast.rs:44-48`); the `NewImage` map
is an association list keyed by attribute name. -/
structure StreamRecord where
  new_image : Option (List (String × AttrWrapper))
deriving DecidableEq, Repr

/-- `DynamoDBRecord` (`ws_broadcast.rs:37-42`). -/
structure DynRecord where
  event_name : String
  dynamodb : Option StreamRecord
deriving DecidableEq, Repr

/-- Look up a string attribute of the stream image
(`image.get(k).and_then(|v| v.s.as_ref())`). -/
def imageGetS (image : List (String × AttrWrapper)) (k : String) : Option String :=
  (image.lookup k).bind (fun w => w.s)

/-- Look up a (parsed) numeric attribute of the stream image. -/
def imageGetN (image : List (String × AttrWrapper)) (k : String) : Option Int :=
  (image.lookup k).bind (fun w => w.n)

/-- A record of the connections table as read by the dispatcher.
`connection_id` and `transport` are optional because the code guards on
their presence (`ws_broadcast.rs:188-196`); `push_url` is the dev-mode
delivery target. -/
structure ConnItem where
  connection_id : Option String
  room_id : String
  transport : Option String
  push_url : Option String
deriving DecidableEq, Repr

/-- Outcome of `post_to_connection` for one gateway delivery:
success, a `GoneException` service error, or any other error. -/
inductive SendResult where
  | success
  | gone
  | otherError
deriving DecidableEq, Repr

/-- One delivery attempt actually performed by the dispatcher. -/
inductive Delivery where
  | apigw (connection_id : String)
  | dev (push_url : String)
deriving DecidableEq, Repr

/-- `delete_item` keyed on `connection_id`
(`ws_broadcast.rs:213-221`). -/
def deleteConn (table : List ConnItem) (cid : String) : List ConnItem :=
  table.filter (fun c => ¬(c.connection_id == some cid))

/-- Mutable state of the per-connection loop of `process_record`:
the connections table (mutated by stale-connection pruning), the
`successful_sends` counter, and the deliveries attempted so far. -/
structure ProcState where
  table : List ConnItem
  successes : Nat
  deliveries : List Delivery
deriving DecidableEq, Repr

/-- One iteration of the per-connection loop
(`ws_broadcast.rs:186-276`).  `send` is the gateway delivery call and
`push` the dev-mode HTTP POST to `push_url` (returning the HTTP status,
or `none` for a transport error).  Branches:

* transport `"apigw"` (the default when the attribute is missing):
  deliver via the gateway; on success count it; on a gone error delete
  the record (deletion errors are logged and ignored); other errors are
  logged only;
* transport `"dev"`: POST to `push_url`; 2xx counts as success, 404/410
  deletes the record, anything else is logged only; a missing `push_url`
  is logged only;
* any other transport: skip. -/
def stepConn (send : String → SendResult) (push : String → Option Nat)
    (st : ProcState) (conn : ConnItem) : ProcState :=
  let transport := conn.transport.getD "apigw"
  if transport == "apigw" then
    match conn.connection_id with
    | some cid =>
      let ds := st.deliveries ++ [Delivery.apigw cid]
      match send cid with
      | .success => { st with successes := st.successes + 1, deliveries := ds }
      | .gone => { st with table := deleteConn st.table cid, deliveries := ds }
      | .otherError => { st with deliveries := ds }
    | none => st
  else if transport == "dev" then
    match conn.push_url with
    | some url =>
      let ds := st.deliveries ++ [Delivery.dev url]
      match push url with
      | some status =>
        if 200 ≤ status ∧ status ≤ 299 then
          { st with successes := st.successes + 1, deliveries := ds }
        else if status == 404 ∨ status == 410 then
          match conn.connection_id with
          | some cid => { st with table := deleteConn st.table cid, deliveries := ds }
          | none => { st with deliveries := ds }
        else
          { st with deliveries := ds }
      | none => { st with deliveries := ds }
    | none => st
  else
    st

/-- What one `process_record` call did: the connections table afterwards,
the "message sent" metric (room id, text byte length), the broadcast
metric triple, and the delivery attempts performed. -/
structure ProcOut where
  table : List ConnItem
  sentMetric : Option (String × Nat)
  broadcastMetric : Option (String × Int × Int × Int)
  deliveries : List Delivery
deriving DecidableEq, Repr

/-- `process_record` (`ws_broadcast.rs:111-283`).

Non-`INSERT` events are skipped before anything else happens; required
image fields are checked in source order; the room's connections are the
snapshot returned by the `room-index` query (modelled as a filter of the
table); then the per-connection loop runs and the metrics are emitted
with `attempts = connections.len()`. -/
def process_record (send : String → SendResult) (push : String → Option Nat)
    (table : List ConnItem) (record : DynRecord) : Except String ProcOut :=
  if ¬(record.event_name == "INSERT") then
    .ok { table := table, sentMetric := none, broadcastMetric := none, deliveries := [] }
  else
    match record.dynamodb with
    | none => .error "No dynamodb data in record"
    | some stream_record =>
      match stream_record.new_image with
      | none => .error "No NewImage in record"
      | some image =>
        match imageGetS image "room_id" with
        | none => .error "Missing room_id"
        | some room_id =>
          match imageGetS image "id" with
          | none => .error "Missing id"
          | some _message_id =>
            match imageGetS image "username" with
            | none => .error "Missing username"
            | some _username =>
              match imageGetS image "message_text" with
              | none => .error "Missing message_text"
              | some message_text =>
                match imageGetN image "ts" with
                | none => .error "Missing or invalid ts"
                | some _ts =>
                  let connections := table.filter (fun c => c.room_id == room_id)
                  let total : Int := connections.length
                  let st := connections.foldl (stepConn send push)
                    { table := table, successes := 0, deliveries := [] }
                  .ok { table := st.table,
                        sentMetric := some (room_id, utf8Len message_text),
                        broadcastMetric :=
                          some (emit_message_broadcast room_id total st.successes),
                        deliveries := st.deliveries }

/-! ### Connection lifecycle (`ws_connect.rs`, `ws_disconnect.rs`) -/

/-- Outcome of a fallible store write (`put_item` / `delete_item`). -/
inductive StoreResult where
  | ok
  | err
deriving DecidableEq, Repr

/-- The `$connect` WebSocket event (`ws_connect.rs:13-28`): connection
id, optional domain/stage, and the query-string parameters. -/
structure ConnectEvent where
  connection_id : String
  domain_name : Option String
  stage : Option String
  query_string_parameters : Option (List (String × String))
deriving DecidableEq, Repr

/-- The full connection record written by the connect handler
(`ws_connect.rs:83-93`). -/
structure ConnRecord where
  connection_id : String
  room_id : String
  user_id : String
  username : String
  connected_at : Int
  domain : String
  stage : String
  transport : String
  ttl : Int
deriving DecidableEq, Repr

/-- What the connect handler did: the integration response status code,
the record it attempted to write, the `"connect"` lifecycle metric
(event type, room), and the `ConnectionErrors` metric's dimensions
(error type, room). -/
structure ConnectOut where
  status_code : Int
  item : ConnRecord
  connectMetric : Option (String × String)
  errorMetric : Option (String × String)
deriving DecidableEq, Repr

/-- Query-parameter lookup with default
(`event.query_string_parameters.as_ref().and_then(..).unwrap_or(..)`). -/
def queryParam (ev : ConnectEvent) (k : String) (dflt : String) : String :=
  ((ev.query_string_parameters.bind (fun ps => ps.lookup k)).getD dflt)

/-- `function_handler` of `ws_connect.rs:36-119`.  `putResult` is the
outcome of the `put_item` registry write; `now_ms` is
`Utc::now().timestamp_millis()`.  On write success the handler returns
status 200 and emits the `connect` lifecycle metric; on write failure it
logs, emits a `ConnectionErrors` metric, and returns status 500. -/
def ws_connect_handler (putResult : StoreResult) (ev : ConnectEvent)
    (now_ms : Int) : ConnectOut :=
  let room_id := queryParam ev "room_id" "general"
  let username := queryParam ev "username" "anon"
  let user_id := queryParam ev "userId" "anon"
  let ttl := now_ms / 1000 + 60 * 60 * 24
  let item : ConnRecord :=
    { connection_id := ev.connection_id, room_id := room_id,
      user_id := user_id, username := username, connected_at := now_ms,
      domain := ev.domain_name.getD "unknown", stage := ev.stage.getD "unknown",
      transport := "apigw", ttl := ttl }
  match putResult with
  | .ok =>
    { status_code := 200, item := item,
      connectMetric := some ("connect", room_id), errorMetric := none }
  | .err =>
    { status_code := 500, item := item,
      connectMetric := none, errorMetric := some ("DatabaseError", room_id) }

/-- Outcome of the disconnect handler's `get_item` lookup
(`ws_disconnect.rs:49-64`): the call errors, or succeeds with no item,
or succeeds with an item whose `room_id` attribute may be absent. -/
inductive GetOutcome where
  | err
  | noItem
  | item (room_id : Option String)
deriving DecidableEq, Repr

/-- What the disconnect handler did: status code, the `"disconnect"`
lifecycle metric (event type, room), and the `DisconnectionErrors`
metric's dimensions. -/
structure DisconnectOut where
  status_code : Int
  disconnectMetric : Option (String × String)
  errorMetric : Option (String × String)
deriving DecidableEq, Repr

/-- The room recovered from the lookup, defaulting to `"unknown"`
(`ws_disconnect.rs:49-64`). -/
def disconnectRoom (g : GetOutcome) : String :=
  match g with
  | .err => "unknown"
  | .noItem => "unknown"
  | .item r => r.getD "unknown"

/-- `function_handler` of `ws_disconnect.rs:31-89`.  `g` is the outcome
of the `get_item` lookup and `delResult` that of the `delete_item`.  The
handler always returns status 200; deletion success emits the
`disconnect` lifecycle metric, deletion failure emits a
`DisconnectionErrors` metric instead. -/
def ws_disconnect_handler (g : GetOutcome) (delResult : StoreResult)
    (_connection_id : String) : DisconnectOut :=
  let room_id := disconnectRoom g
  match delResult with
  | .ok =>
    { status_code := 200,
      disconnectMetric := some ("disconnect", room_id), errorMetric := none }
  | .err =>
    { status_code := 200,
      disconnectMetric := none, errorMetric := some ("DatabaseError", room_id) }

/-! ### Claim C5 — non-insert events are skipped -/

/-- C5: for every change-event record whose event kind is not `"INSERT"`
(for example `"MODIFY"`), `process_record` performs zero delivery
attempts, emits zero metrics, and leaves the registry untouched. -/
theorem c5_non_insert_event_skipped (send : String → SendResult)
    (push : String → Option Nat) (table : List ConnItem) (record : DynRecord)
    (h : record.event_name ≠ "INSERT") :
    process_record send push table record =
      .ok { table := table, sentMetric := none, broadcastMetric := none,
            deliveries := [] } := by
  simp [process_record, h]

/-- Witness for C5 at a concrete `"MODIFY"` record. -/
theorem c5_non_insert_event_skipped_witness :
    ({ event_name := "MODIFY", dynamodb := none : DynRecord }).event_name ≠ "INSERT" ∧
    process_record (fun _ => SendResult.success) (fun _ => some 200)
      [{ connection_id := some "A", room_id := "r", transport := none, push_url := none }]
      { event_name := "MODIFY", dynamodb := none } =
      .ok { table := [{ connection_id := some "A", room_id := "r",
                        transport := none, push_url := none }],
            sentMetric := none, broadcastMetric := none, deliveries := [] } :=
  ⟨by decide, c5_non_insert_event_skipped _ _ _ _ (by decide)⟩

/-! ### Claim C3 — connect handler on store-write failure -/

/-- C3 (counterexample): the claim says the socket handshake is still
accepted (success reported to the caller) when the registry store-write
fails; in fact the connect handler then returns integration status 500,
not 200, so the handshake is rejected. -/
theorem c3_connect_failure_counterexample :
    (ws_connect_handler .err
        { connection_id := "C1", domain_name := none, stage := none,
          query_string_parameters := none } 0).status_code = 500 ∧
    ¬((ws_connect_handler .err
        { connection_id := "C1", domain_name := none, stage := none,
          query_string_parameters := none } 0).status_code = 200) := by
  constructor
  · rfl
  · decide

/-- C3 (amended): on a registry store-write failure the connect handler
logs the error, emits only the `ConnectionErrors` error metric, and
returns status 500 (the handshake is not accepted); on a successful
write it returns status 200 and emits the `connect` lifecycle metric. -/
theorem c3_connect_failure_amended (ev : ConnectEvent) (now_ms : Int) :
    (ws_connect_handler .err ev now_ms).status_code = 500 ∧
    (ws_connect_handler .err ev now_ms).connectMetric = none ∧
    (ws_connect_handler .err ev now_ms).errorMetric =
      some ("DatabaseError", queryParam ev "room_id" "general") ∧
    (ws_connect_handler .ok ev now_ms).status_code = 200 ∧
    (ws_connect_handler .ok ev now_ms).connectMetric =
      some ("connect", queryParam ev "room_id" "general") := by
  simp [ws_connect_handler]

/-! ### Claim C9 — disconnect handler always succeeds -/

/-- C9: `onDisconnect` returns status 200 for every lookup and delete
outcome (in particular for an unknown `connectionId`, where the lookup
finds no item, and when the registry delete fails); and whenever the
lookup yields no room, the `disconnect` lifecycle metric — emitted on
delete success — is attributed to room `"unknown"`. -/
theorem c9_disconnect_always_success (g : GetOutcome) (d : StoreResult)
    (cid : String) :
    (ws_disconnect_handler g d cid).status_code = 200 ∧
    ((g = .err ∨ g = .noItem ∨ g = .item none) → d = .ok →
      (ws_disconnect_handler g d cid).disconnectMetric =
        some ("disconnect", "unknown")) := by
  constructor
  · cases d <;> simp [ws_disconnect_handler]
  · rintro (rfl | rfl | rfl) rfl <;> simp [ws_disconnect_handler, disconnectRoom]

/-- Witness for C9 at an unknown connection id (lookup finds no item)
with a successful delete. -/
theorem c9_disconnect_always_success_witness :
    (GetOutcome.noItem = GetOutcome.err ∨ GetOutcome.noItem = GetOutcome.noItem ∨
      GetOutcome.noItem = GetOutcome.item none) ∧
    (ws_disconnect_handler .noItem .ok "C9").status_code = 200 ∧
    (ws_disconnect_handler .noItem .ok "C9").disconnectMetric =
      some ("disconnect", "unknown") := by
  have h := c9_disconnect_always_success .noItem .ok "C9"
  exact ⟨Or.inr (Or.inl rfl), h.1, h.2 (Or.inr (Or.inl rfl)) rfl⟩

/-! ### String lemmas for the validation claims -/

theorem dropWhile_eq_self_of_forall {p : Char → Bool} {l : List Char}
    (h : ∀ c ∈ l, p c = false) : l.dropWhile p = l := by
  cases l with
  | nil => rfl
  | cons x xs => simp [List.dropWhile, h x (by simp)]

theorem rustTrimList_eq_self {l : List Char}
    (h : ∀ c ∈ l, rustIsWhitespace c = false) : rustTrimList l = l := by
  unfold rustTrimList
  rw [dropWhile_eq_self_of_forall h, dropWhile_eq_self_of_forall, List.reverse_reverse]
  intro c hc
  exact h c (by simpa using hc)

theorem rustTrim_eq_self {s : String}
    (h : ∀ c ∈ s.data, rustIsWhitespace c = false) : rustTrim s = s := by
  unfold rustTrim
  rw [rustTrimList_eq_self h]

theorem sum_map_utf8CharLen_ascii {l : List Char}
    (h : ∀ c ∈ l, c.toNat < 0x80) : (l.map utf8CharLen).sum = l.length := by
  induction l with
  | nil => rfl
  | cons x xs ih =>
    have hx : utf8CharLen x = 1 := by
      unfold utf8CharLen
      rw [if_pos (h x (by simp))]
    simp [hx, ih (fun c hc => h c (by simp [hc]))]
    omega

theorem utf8Len_ascii {s : String} (h : ∀ c ∈ s.data, c.toNat < 0x80) :
    utf8Len s = s.data.length :=
  sum_map_utf8CharLen_ascii h

/-- An ASCII, whitespace-free text longer than 500 characters is
rejected by `validate_message_text`. -/
theorem validate_message_text_ascii_long {text : String}
    (hlen : 500 < text.data.length)
    (hc : ∀ c ∈ text.data, rustIsWhitespace c = false ∧ c.toNat < 0x80) :
    validate_message_text text =
      .error "Message text cannot be longer than 500 characters" := by
  unfold validate_message_text
  rw [rustTrim_eq_self (fun c hcm => (hc c hcm).1)]
  have hne : text.data.isEmpty = false := by
    cases hd : text.data with
    | nil => rw [hd] at hlen; simp at hlen
    | cons x xs => simp [hd]
  rw [if_neg (by simp [hne])]
  rw [if_pos]
  rw [utf8Len_ascii (fun c hcm => (hc c hcm).2)]
  exact hlen

/-- An ASCII, whitespace-free, nonempty text of at most 500 characters
is accepted verbatim by `validate_message_text`. -/
theorem validate_message_text_ascii_ok {text : String}
    (hpos : 0 < text.data.length) (hlen : text.data.length ≤ 500)
    (hc : ∀ c ∈ text.data, rustIsWhitespace c = false ∧ c.toNat < 0x80) :
    validate_message_text text = .ok text := by
  unfold validate_message_text
  rw [rustTrim_eq_self (fun c hcm => (hc c hcm).1)]
  have hne : text.data.isEmpty = false := by
    cases hd : text.data with
    | nil => rw [hd] at hpos; simp at hpos
    | cons x xs => simp [hd]
  rw [if_neg (by simp [hne])]
  rw [if_neg]
  rw [utf8Len_ascii (fun c hcm => (hc c hcm).2)]
  omega

/-! ### Claim C7 — message-text length boundary at 500 -/

/-- C7: `postMessage` with a 501-character text (ASCII, no surrounding
whitespace, all other fields valid) fails with the validation error,
while the same call with a 500-character text succeeds. -/
theorem c7_text_length_boundary (text500 text501 : String)
    (h500 : text500.data.length = 500) (h501 : text501.data.length = 501)
    (hc500 : ∀ c ∈ text500.data, rustIsWhitespace c = false ∧ c.toNat < 0x80)
    (hc501 : ∀ c ∈ text501.data, rustIsWhitespace c = false ∧ c.toNat < 0x80) :
    post_message_handler [] [] []
        { room_id := "general", user_id := "u1", username := "alice",
          message_text := text501, client_message_id := none } "m1" 0 =
      .error "Message text cannot be longer than 500 characters" ∧
    (post_message_handler [] [] []
        { room_id := "general", user_id := "u1", username := "alice",
          message_text := text500, client_message_id := none } "m1" 0).isOk = true := by
  have hbad : validate_message_text text501 =
      .error "Message text cannot be longer than 500 characters" :=
    validate_message_text_ascii_long (by omega) hc501
  have hok : validate_message_text text500 = .ok text500 :=
    validate_message_text_ascii_ok (by omega) (by omega) hc500
  have hroom : validate_room_id "general" = .ok "general" := by decide
  have huser : validate_username "alice" = .ok "alice" := by decide
  constructor
  · simp [post_message_handler, hroom, huser, hbad, Bind.bind, Except.bind]
  · simp [post_message_handler, hroom, huser, hok, Bind.bind, Except.bind,
      ensure_room_exists, Except.isOk, Except.toBool]

/-- Witness for C7 with `'a' * 501` and `'a' * 500`. -/
theorem c7_text_length_boundary_witness :
    (String.mk (List.replicate 500 'a')).data.length = 500 ∧
    (String.mk (List.replicate 501 'a')).data.length = 501 ∧
    post_message_handler [] [] []
        { room_id := "general", user_id := "u1", username := "alice",
          message_text := String.mk (List.replicate 501 'a'),
          client_message_id := none } "m1" 0 =
      .error "Message text cannot be longer than 500 characters" ∧
    (post_message_handler [] [] []
        { room_id := "general", user_id := "u1", username := "alice",
          message_text := String.mk (List.replicate 500 'a'),
          client_message_id := none } "m1" 0).isOk = true := by
  have hmem500 : ∀ c ∈ (String.mk (List.replicate 500 'a')).data,
      rustIsWhitespace c = false ∧ c.toNat < 0x80 := by
    intro c hcm
    rw [List.mem_replicate] at hcm
    rw [hcm.2]
    exact ⟨by decide, by decide⟩
  have hmem501 : ∀ c ∈ (String.mk (List.replicate 501 'a')).data,
      rustIsWhitespace c = false ∧ c.toNat < 0x80 := by
    intro c hcm
    rw [List.mem_replicate] at hcm
    rw [hcm.2]
    exact ⟨by decide, by decide⟩
  have hl500 : (String.mk (List.replicate 500 'a')).data.length = 500 := by
    show (List.replicate 500 'a').length = 500
    rw [List.length_replicate]
  have hl501 : (String.mk (List.replicate 501 'a')).data.length = 501 := by
    show (List.replicate 501 'a').length = 501
    rw [List.length_replicate]
  have h := c7_text_length_boundary (String.mk (List.replicate 500 'a'))
    (String.mk (List.replicate 501 'a')) hl500 hl501 hmem500 hmem501
  exact ⟨hl500, hl501, h.1, h.2⟩

/-! ### Claim C10 — byte-length validation -/

/-- C10 (counterexample): the claim says validation rejects an input
exactly when the trimmed string exceeds the byte limit; but the empty
string is rejected although its trimmed byte length (0) does not exceed
50. -/
theorem c10_byte_length_counterexample :
    (validate_username "").isOk = false ∧ ¬(50 < utf8Len (rustTrim "")) := by
  decide

/-- C10 (amended): `validate_username` / `validate_message_text` reject
an input exactly when the trimmed string is empty or its UTF-8 byte
length exceeds 50 / 500 — a byte count, not a character count: a text of
500 two-byte characters (1000 bytes) is rejected even though it has only
500 characters. -/
theorem c10_byte_length_amended :
    (∀ s, (validate_username s).isOk = false ↔
      ((rustTrim s).data.isEmpty = true ∨ 50 < utf8Len (rustTrim s))) ∧
    (∀ s, (validate_message_text s).isOk = false ↔
      ((rustTrim s).data.isEmpty = true ∨ 500 < utf8Len (rustTrim s))) ∧
    ((String.mk (List.replicate 500 'é')).data.length = 500 ∧
      validate_message_text (String.mk (List.replicate 500 'é')) =
        .error "Message text cannot be longer than 500 characters") := by
  refine ⟨?_, ?_, ?_, ?_⟩
  · intro s
    unfold validate_username
    by_cases h1 : (rustTrim s).data.isEmpty
    · simp [h1, Except.isOk, Except.toBool]
    · by_cases h2 : 50 < utf8Len (rustTrim s) <;>
        simp [h1, h2, Except.isOk, Except.toBool]
  · intro s
    unfold validate_message_text
    by_cases h1 : (rustTrim s).data.isEmpty
    · simp [h1, Except.isOk, Except.toBool]
    · by_cases h2 : 500 < utf8Len (rustTrim s) <;>
        simp [h1, h2, Except.isOk, Except.toBool]
  · show (List.replicate 500 'é').length = 500
    rw [List.length_replicate]
  · have hws : rustIsWhitespace 'é' = false := by decide
    have hne : (List.replicate 500 'é').isEmpty = false := by
      cases hd : List.replicate 500 'é' with
      | nil =>
        have hlen := List.length_replicate 500 'é'
        rw [hd] at hlen
        simp at hlen
      | cons x xs => rfl
    have hlen2 : 500 < utf8Len (String.mk (List.replicate 500 'é')) := by
      show 500 < ((List.replicate 500 'é').map utf8CharLen).sum
      rw [List.map_replicate, List.sum_replicate, smul_eq_mul]
      decide
    unfold validate_message_text
    rw [rustTrim_eq_self (s := String.mk (List.replicate 500 'é'))
      (by intro c hcm; rw [List.mem_replicate] at hcm; rw [hcm.2]; exact hws)]
    rw [if_neg (by show ¬((List.replicate 500 'é').isEmpty = true); rw [hne]; simp)]
    rw [if_pos hlen2]

/-! ### Claim C4 — room creation under a concurrent creator -/

/-- C4: the claim says the conditional room-create write "succeeds as a
no-op if another concurrent creator wins" and `postMessage` still
completes.  In the code, a lost conditional write is mapped to an error
(`.map_err(..)?`, `lib.rs:107`), so `ensure_room_exists` — and with it
`post_message_handler` — fails when the room appears between the
existence check and the conditional put.  This theorem evaluates the
embedding at that failing input: the rooms table is empty at the
`get_item` but holds the room (written by the concurrent winner) at the
conditional `put_item`. -/
theorem c4_concurrent_create_fails :
    ensure_room_exists [] [{ id := "lobby", name := "lobby", created_at := 5 }]
        "lobby" 7 =
      .error "Failed to create room: ConditionalCheckFailedException" ∧
    post_message_handler [] [{ id := "lobby", name := "lobby", created_at := 5 }] []
        { room_id := "lobby", user_id := "u1", username := "alice",
          message_text := "hi", client_message_id := none } "m1" 7 =
      .error "Failed to create room: ConditionalCheckFailedException" := by
  constructor
  · rfl
  · rfl

/-! ### Broadcast fixtures -/

/-- A well-formed `INSERT` stream record carrying the five required
image attributes, used to drive `process_record`. -/
def insertRecord (room_id message_id username message_text : String)
    (ts : Int) : DynRecord :=
  { event_name := "INSERT",
    dynamodb := some
      { new_image := some
          [("room_id", { s := some room_id, n := none }),
           ("id", { s := some message_id, n := none }),
           ("username", { s := some username, n := none }),
           ("message_text", { s := some message_text, n := none }),
           ("ts", { s := none, n := some ts })] } }

/-- On a well-formed insert record, `process_record` runs the
per-connection loop over the room's snapshot and emits both metrics. -/
theorem process_record_insertRecord (send : String → SendResult)
    (push : String → Option Nat) (table : List ConnItem)
    (rid mid un mt : String) (ts : Int) :
    process_record send push table (insertRecord rid mid un mt ts) =
      (let connections := table.filter (fun c => c.room_id == rid)
       let st := connections.foldl (stepConn send push)
         { table := table, successes := 0, deliveries := [] }
       .ok { table := st.table, sentMetric := some (rid, utf8Len mt),
             broadcastMetric :=
               some (emit_message_broadcast rid connections.length st.successes),
             deliveries := st.deliveries }) := by
  rfl

/-- A connection whose transport is neither `"apigw"` nor `"dev"` leaves
the loop state untouched. -/
theorem stepConn_unknown_transport (send : String → SendResult)
    (push : String → Option Nat) (st : ProcState) (c : ConnItem)
    (h1 : ¬(c.transport.getD "apigw" = "apigw"))
    (h2 : ¬(c.transport.getD "apigw" = "dev")) :
    stepConn send push st c = st := by
  simp [stepConn, beq_iff_eq, h1, h2]

theorem foldl_stepConn_unknown (send : String → SendResult)
    (push : String → Option Nat) (l : List ConnItem) (st : ProcState)
    (h : ∀ c ∈ l, ¬(c.transport.getD "apigw" = "apigw") ∧
      ¬(c.transport.getD "apigw" = "dev")) :
    l.foldl (stepConn send push) st = st := by
  induction l generalizing st with
  | nil => rfl
  | cons x xs ih =>
    rw [List.foldl_cons,
      stepConn_unknown_transport send push st x (h x (by simp)).1 (h x (by simp)).2]
    exact ih st (fun c hc => h c (by simp [hc]))

/-! ### Claim C2 — unrecognized transport and the attempts metric -/

/-- Fixture: a registered connection whose transport is neither
`"apigw"` nor `"dev"`. -/
def bogusConn : ConnItem :=
  { connection_id := some "X", room_id := "r", transport := some "bogus",
    push_url := none }

/-- C2 (counterexample): the claim says a connection with an
unrecognized transport does not count toward the `attempts` value of the
broadcast metric triple.  With one `"bogus"`-transport connection in the
room, the dispatcher performs no delivery, yet emits
`attempts = 1, successes = 0, failures = 1` — the skipped record is
counted (`total_connections = connections.len()`,
`ws_broadcast.rs:179`), so the triple is not `attempts = 0`. -/
theorem c2_unknown_transport_counterexample :
    ∃ out : ProcOut,
      process_record (fun _ => SendResult.success) (fun _ => some 200)
        [bogusConn] (insertRecord "r" "m1" "u" "hi" 5) = .ok out ∧
      out.deliveries = [] ∧
      out.broadcastMetric = some ("r", 1, 0, 1) ∧
      ∀ s f, ¬(out.broadcastMetric = some ("r", 0, s, f)) := by
  refine ⟨{ table := [bogusConn], sentMetric := some ("r", 2),
            broadcastMetric := some ("r", 1, 0, 1), deliveries := [] },
    by decide, rfl, rfl, ?_⟩
  intro s f h
  simp at h

/-- C2 (amended): a connection record with an unrecognized transport is
skipped (no delivery attempt is made for it, no success is recorded, and
the registry is not touched), but it still counts toward the `attempts`
value — and hence the `failures` value — of the broadcast metric
triple. -/
theorem c2_unknown_transport_amended (send : String → SendResult)
    (push : String → Option Nat) (table : List ConnItem)
    (rid mid un mt : String) (ts : Int)
    (h : ∀ c ∈ table.filter (fun c => c.room_id == rid),
      ¬(c.transport.getD "apigw" = "apigw") ∧
      ¬(c.transport.getD "apigw" = "dev")) :
    process_record send push table (insertRecord rid mid un mt ts) =
      .ok { table := table,
            sentMetric := some (rid, utf8Len mt),
            broadcastMetric := some (rid,
              ((table.filter (fun c => c.room_id == rid)).length : Int), 0,
              ((table.filter (fun c => c.room_id == rid)).length : Int)),
            deliveries := [] } := by
  rw [process_record_insertRecord]
  simp only [foldl_stepConn_unknown send push _ _ h, emit_message_broadcast]
  simp

/-- Witness for the amended C2 at a concrete one-connection registry. -/
theorem c2_unknown_transport_amended_witness :
    (∀ c ∈ [bogusConn].filter (fun c => c.room_id == "r"),
      ¬(c.transport.getD "apigw" = "apigw") ∧
      ¬(c.transport.getD "apigw" = "dev")) ∧
    process_record (fun _ => SendResult.success) (fun _ => some 200)
      [bogusConn] (insertRecord "r" "m1" "u" "hi" 5) =
      .ok { table := [bogusConn],
            sentMetric := some ("r", 2),
            broadcastMetric := some ("r", 1, 0, 1),
            deliveries := [] } := by
  have hh : ∀ c ∈ [bogusConn].filter (fun c => c.room_id == "r"),
      ¬(c.transport.getD "apigw" = "apigw") ∧
      ¬(c.transport.getD "apigw" = "dev") := by decide
  have h := c2_unknown_transport_amended (fun _ => SendResult.success)
    (fun _ => some 200) _ "r" "m1" "u" "hi" 5 hh
  exact ⟨hh, h⟩

/-! ### Claim C1 — one gone connection out of three -/

theorem length_filter_not_of_countP_one {p : ConnItem → Bool}
    {table : List ConnItem} (hcount : table.countP p = 1) :
    (table.filter (fun x => ¬(p x))).length + 1 = table.length := by
  have h2 := List.length_eq_countP_add_countP p (l := table)
  have h3 : (table.filter (fun x => ¬(p x))).length =
      table.countP (fun x => decide (¬(p x = true))) := by
    rw [List.countP_eq_length_filter]
  omega

/-- A connection that survives one key-deletion: it is in the table and
carries a different connection id. -/
theorem mem_deleteConn_of_ne {table : List ConnItem} {x : ConnItem}
    {cx g : String} (hmem : x ∈ table) (hxid : x.connection_id = some cx)
    (hne : cx ≠ g) : x ∈ deleteConn table g := by
  unfold deleteConn
  rw [List.mem_filter]
  refine ⟨hmem, ?_⟩
  simp [hxid, hne]

/-- C1: dispatching a message-insert event to a room whose registry
snapshot holds exactly three gateway-transport connections, where
exactly one delivery (to connection id `g`, in any of the three
positions) returns "gone" and the other two succeed, attempts all three
deliveries, emits the broadcast triple (attempts 3, successes 2,
failures 1), deletes exactly the gone connection's record, and keeps
every connection whose id differs from `g` registered. -/
theorem c1_gone_connection_pruned (send : String → SendResult)
    (push : String → Option Nat) (table : List ConnItem)
    (rid mid un mt : String) (ts : Int) (a b c : ConnItem) (ca cb cc g : String)
    (hfilter : table.filter (fun x => x.room_id == rid) = [a, b, c])
    (hat : a.transport.getD "apigw" = "apigw")
    (hbt : b.transport.getD "apigw" = "apigw")
    (hct : c.transport.getD "apigw" = "apigw")
    (haid : a.connection_id = some ca)
    (hbid : b.connection_id = some cb)
    (hcid : c.connection_id = some cc)
    (hgone :
      (g = ca ∧ send ca = .gone ∧ send cb = .success ∧ send cc = .success ∧
        cb ≠ g ∧ cc ≠ g) ∨
      (g = cb ∧ send cb = .gone ∧ send ca = .success ∧ send cc = .success ∧
        ca ≠ g ∧ cc ≠ g) ∨
      (g = cc ∧ send cc = .gone ∧ send ca = .success ∧ send cb = .success ∧
        ca ≠ g ∧ cb ≠ g))
    (hcount : table.countP (fun x => x.connection_id == some g) = 1) :
    process_record send push table (insertRecord rid mid un mt ts) =
      .ok { table := deleteConn table g,
            sentMetric := some (rid, utf8Len mt),
            broadcastMetric := some (rid, 3, 2, 1),
            deliveries := [.apigw ca, .apigw cb, .apigw cc] } ∧
    (deleteConn table g).length + 1 = table.length ∧
    (ca ≠ g → a ∈ deleteConn table g) ∧
    (cb ≠ g → b ∈ deleteConn table g) ∧
    (cc ≠ g → c ∈ deleteConn table g) := by
  have hma : a ∈ table :=
    List.mem_of_mem_filter (by rw [hfilter]; simp : a ∈ table.filter _)
  have hmb : b ∈ table :=
    List.mem_of_mem_filter (by rw [hfilter]; simp : b ∈ table.filter _)
  have hmc : c ∈ table :=
    List.mem_of_mem_filter (by rw [hfilter]; simp : c ∈ table.filter _)
  refine ⟨?_, length_filter_not_of_countP_one hcount,
    fun hne => mem_deleteConn_of_ne hma haid hne,
    fun hne => mem_deleteConn_of_ne hmb hbid hne,
    fun hne => mem_deleteConn_of_ne hmc hcid hne⟩
  rw [process_record_insertRecord]
  simp only [hfilter]
  rcases hgone with ⟨hg, hsa, hsb, hsc, _, _⟩ | ⟨hg, hsb, hsa, hsc, _, _⟩ |
    ⟨hg, hsc, hsa, hsb, _, _⟩
  · subst hg
    have step1 : stepConn send push
        { table := table, successes := 0, deliveries := [] } a =
        { table := deleteConn table g, successes := 0,
          deliveries := [.apigw g] } := by
      simp [stepConn, hat, haid, hsa]
    have step2 : stepConn send push
        { table := deleteConn table g, successes := 0,
          deliveries := [.apigw g] } b =
        { table := deleteConn table g, successes := 1,
          deliveries := [.apigw g, .apigw cb] } := by
      simp [stepConn, hbt, hbid, hsb]
    have step3 : stepConn send push
        { table := deleteConn table g, successes := 1,
          deliveries := [.apigw g, .apigw cb] } c =
        { table := deleteConn table g, successes := 2,
          deliveries := [.apigw g, .apigw cb, .apigw cc] } := by
      simp [stepConn, hct, hcid, hsc]
    simp only [List.foldl_cons, List.foldl_nil, step1, step2, step3,
      emit_message_broadcast, List.length_cons, List.length_nil]
    norm_num
  · subst hg
    have step1 : stepConn send push
        { table := table, successes := 0, deliveries := [] } a =
        { table := table, successes := 1, deliveries := [.apigw ca] } := by
      simp [stepConn, hat, haid, hsa]
    have step2 : stepConn send push
        { table := table, successes := 1, deliveries := [.apigw ca] } b =
        { table := deleteConn table g, successes := 1,
          deliveries := [.apigw ca, .apigw g] } := by
      simp [stepConn, hbt, hbid, hsb]
    have step3 : stepConn send push
        { table := deleteConn table g, successes := 1,
          deliveries := [.apigw ca, .apigw g] } c =
        { table := deleteConn table g, successes := 2,
          deliveries := [.apigw ca, .apigw g, .apigw cc] } := by
      simp [stepConn, hct, hcid, hsc]
    simp only [List.foldl_cons, List.foldl_nil, step1, step2, step3,
      emit_message_broadcast, List.length_cons, List.length_nil]
    norm_num
  · subst hg
    have step1 : stepConn send push
        { table := table, successes := 0, deliveries := [] } a =
        { table := table, successes := 1, deliveries := [.apigw ca] } := by
      simp [stepConn, hat, haid, hsa]
    have step2 : stepConn send push
        { table := table, successes := 1, deliveries := [.apigw ca] } b =
        { table := table, successes := 2,
          deliveries := [.apigw ca, .apigw cb] } := by
      simp [stepConn, hbt, hbid, hsb]
    have step3 : stepConn send push
        { table := table, successes := 2,
          deliveries := [.apigw ca, .apigw cb] } c =
        { table := deleteConn table g, successes := 2,
          deliveries := [.apigw ca, .apigw cb, .apigw g] } := by
      simp [stepConn, hct, hcid, hsc]
    simp only [List.foldl_cons, List.foldl_nil, step1, step2, step3,
      emit_message_broadcast, List.length_cons, List.length_nil]
    norm_num

/-- Fixtures for the C1 witness: three gateway connections in room
`"r"`, of which `"B"` is gone at the gateway. -/
def connA : ConnItem :=
  { connection_id := some "A", room_id := "r", transport := some "apigw",
    push_url := none }

def connB : ConnItem :=
  { connection_id := some "B", room_id := "r", transport := some "apigw",
    push_url := none }

def connC : ConnItem :=
  { connection_id := some "C", room_id := "r", transport := none,
    push_url := none }

/-- Delivery oracle for the C1 witness: connection `"B"` is gone. -/
def sendGoneB (cid : String) : SendResult :=
  if cid == "B" then .gone else .success

/-- Witness for C1 on the concrete three-connection registry. -/
theorem c1_gone_connection_pruned_witness :
    ([connA, connB, connC].filter (fun x => x.room_id == "r") =
      [connA, connB, connC]) ∧
    sendGoneB "A" = .success ∧ sendGoneB "B" = .gone ∧ sendGoneB "C" = .success ∧
    [connA, connB, connC].countP (fun x => x.connection_id == some "B") = 1 ∧
    process_record sendGoneB (fun _ => some 200) [connA, connB, connC]
        (insertRecord "r" "m1" "u" "hi" 5) =
      .ok { table := deleteConn [connA, connB, connC] "B",
            sentMetric := some ("r", 2),
            broadcastMetric := some ("r", 3, 2, 1),
            deliveries := [.apigw "A", .apigw "B", .apigw "C"] } ∧
    (deleteConn [connA, connB, connC] "B").length + 1 =
      ([connA, connB, connC] : List ConnItem).length ∧
    connA ∈ deleteConn [connA, connB, connC] "B" ∧
    connC ∈ deleteConn [connA, connB, connC] "B" := by
  have h := c1_gone_connection_pruned sendGoneB (fun _ => some 200)
    [connA, connB, connC] "r" "m1" "u" "hi" 5 connA connB connC "A" "B" "C" "B"
    (by decide) (by decide) (by decide) (by decide) (by decide) (by decide)
    (by decide)
    (Or.inr (Or.inl ⟨rfl, by decide, by decide, by decide, by decide, by decide⟩))
    (by decide)
  exact ⟨by decide, by decide, by decide, by decide, by decide,
    h.1, h.2.1, h.2.2.1 (by decide), h.2.2.2.2 (by decide)⟩

/-! ### Claim C6 — getMessages order, bound and empty room -/

/-- C6: for every messages-table state and room id, a successful
`get_messages_handler` returns at most 25 messages in ascending
timestamp order; and on a valid room id with no stored messages it
returns the empty sequence rather than an error. -/
theorem c6_get_messages_ordered_bounded (msgs : List MsgItem) (room_id : String) :
    (∀ resp, get_messages_handler msgs room_id = .ok resp →
      resp.messages.length ≤ 25 ∧
      resp.messages.Pairwise (fun m1 m2 => m1.created_at ≤ m2.created_at)) ∧
    (∀ rid, validate_room_id room_id = .ok rid →
      msgs.filter (fun m => m.room_id == rid) = [] →
      get_messages_handler msgs room_id = .ok { room_id := rid, messages := [] }) := by
  constructor
  · intro resp h
    cases hrid : validate_room_id room_id with
    | error e =>
      rw [get_messages_handler, hrid] at h
      simp [Bind.bind, Except.bind] at h
    | ok rid =>
      rw [get_messages_handler, hrid] at h
      simp only [Bind.bind, Except.bind, Except.ok.injEq] at h
      subst h
      constructor
      · simp only [List.length_map, queryMessages]
        exact List.length_take_le 25 _
      · have hsorted : (List.insertionSort tsLe
            (msgs.filter (fun m => m.room_id == rid))).Pairwise tsLe :=
          List.sorted_insertionSort tsLe _
        have htake : (queryMessages msgs rid).Pairwise tsLe :=
          hsorted.sublist (List.take_sublist 25 _)
        exact List.Pairwise.map _ (fun m1 m2 hle => hle) htake
  · intro rid hrid hfil
    rw [get_messages_handler, hrid]
    simp [Bind.bind, Except.bind, queryMessages, hfil]

/-- Witness for C6: an empty store with room id `"general"`. -/
theorem c6_get_messages_ordered_bounded_witness :
    validate_room_id "general" = .ok "general" ∧
    ([] : List MsgItem).filter (fun m => m.room_id == "general") = [] ∧
    get_messages_handler [] "general" = .ok { room_id := "general", messages := [] } := by
  have h := (c6_get_messages_ordered_bounded [] "general").2 "general" (by decide) rfl
  exact ⟨by decide, rfl, h⟩

/-! ### Claim C8 — postMessage/getMessages round-trip -/

/-- Fixture: 25 messages already stored in room `"full"`, with
timestamps 0..24. -/
def c8PriorMsgs : List MsgItem :=
  (List.range 25).map (fun i =>
    { id := "old", room_id := "full", user_id := some "u", username := "alice",
      message_text := "x", ts := (i : Int), client_message_id := none })

/-- C8 (counterexample): in a room already holding 25 older messages,
a message persisted via `post_message_handler` is not read back by
`get_messages_handler` at all — the query keeps the oldest 25 by
ascending timestamp (`lib.rs:190-191`), which excludes the new message,
so no returned message carries its fields. -/
theorem c8_roundtrip_counterexample :
    post_message_handler [{ id := "full", name := "full", created_at := 0 }]
        [{ id := "full", name := "full", created_at := 0 }] c8PriorMsgs
        { room_id := "full", user_id := "u1", username := "bob",
          message_text := "hello", client_message_id := some "k" } "fresh" 100 =
      .ok ({ id := "fresh", room_id := "full", user_id := "u1", username := "bob",
             message_text := "hello", created_at := 100, client_message_id := some "k" },
           [{ id := "full", name := "full", created_at := 0 }],
           c8PriorMsgs ++
             [{ id := "fresh", room_id := "full", user_id := some "u1",
                username := "bob", message_text := "hello", ts := 100,
                client_message_id := some "k" }]) ∧
    get_messages_handler
        (c8PriorMsgs ++
          [{ id := "fresh", room_id := "full", user_id := some "u1",
             username := "bob", message_text := "hello", ts := 100,
             client_message_id := some "k" }]) "full" =
      .ok { room_id := "full",
            messages := c8PriorMsgs.map (itemToChatMessage "full") } ∧
    ∀ m ∈ c8PriorMsgs.map (itemToChatMessage "full"), ¬(m.id = "fresh") := by
  refine ⟨by decide, by decide, by decide⟩

/-- C8 (amended): a message persisted via `post_message_handler` is read
back by `get_messages_handler` on the same room with identical `id`,
`username`, `message_text` and `client_message_id` — provided the room
held fewer than 25 messages before the post, so that the new message
falls inside the oldest-25 query window. -/
theorem c8_roundtrip_amended (roomsG roomsP rooms : List RoomItem)
    (msgs : List MsgItem) (req : SendMessageRequest) (mid : String) (now : Int)
    (rid username text : String)
    (hrid : validate_room_id req.room_id = .ok rid)
    (huser : validate_username req.username = .ok username)
    (htext : validate_message_text req.message_text = .ok text)
    (hens : ensure_room_exists roomsG roomsP rid now = .ok rooms)
    (hroom : (msgs.filter (fun m => m.room_id == rid)).length < 25) :
    ∃ message msgs',
      post_message_handler roomsG roomsP msgs req mid now =
        .ok (message, rooms, msgs') ∧
      ∃ resp, get_messages_handler msgs' req.room_id = .ok resp ∧
        ∃ m ∈ resp.messages,
          m.id = message.id ∧ m.username = message.username ∧
          m.message_text = message.message_text ∧
          m.client_message_id = message.client_message_id := by
  refine ⟨{ id := mid, room_id := rid, user_id := req.user_id,
            username := username, message_text := text, created_at := now,
            client_message_id := req.client_message_id },
          msgs ++ [{ id := mid, room_id := rid, user_id := some req.user_id,
                     username := username, message_text := text, ts := now,
                     client_message_id := req.client_message_id }], ?_, ?_⟩
  · simp [post_message_handler, hrid, huser, htext, hens, Bind.bind, Except.bind]
  · set item : MsgItem :=
      { id := mid, room_id := rid, user_id := some req.user_id,
        username := username, message_text := text, ts := now,
        client_message_id := req.client_message_id } with hitem
    have hfil : (msgs ++ [item]).filter (fun m => m.room_id == rid) =
        msgs.filter (fun m => m.room_id == rid) ++ [item] := by
      rw [List.filter_append]
      simp [hitem]
    have hperm := List.perm_insertionSort tsLe
      ((msgs ++ [item]).filter (fun m => m.room_id == rid))
    have hlens : (List.insertionSort tsLe
        ((msgs ++ [item]).filter (fun m => m.room_id == rid))).length ≤ 25 := by
      rw [hperm.length_eq, hfil, List.length_append]
      simp
      omega
    have hmem : item ∈ List.insertionSort tsLe
        ((msgs ++ [item]).filter (fun m => m.room_id == rid)) := by
      rw [hperm.mem_iff, hfil]
      simp
    refine ⟨{ room_id := rid,
              messages := (queryMessages (msgs ++ [item]) rid).map
                (itemToChatMessage rid) }, ?_, ?_⟩
    · rw [get_messages_handler, hrid]
      simp [Bind.bind, Except.bind]
    · refine ⟨itemToChatMessage rid item, ?_, rfl, rfl, rfl, rfl⟩
      show itemToChatMessage rid item ∈
        (queryMessages (msgs ++ [item]) rid).map (itemToChatMessage rid)
      unfold queryMessages
      rw [List.take_of_length_le hlens]
      exact List.mem_map_of_mem _ hmem

/-- Witness for the amended C8: a fresh room `"general"`, empty store. -/
theorem c8_roundtrip_amended_witness :
    validate_room_id "general" = .ok "general" ∧
    validate_username "bob" = .ok "bob" ∧
    validate_message_text "hello" = .ok "hello" ∧
    ensure_room_exists [] [] "general" 0 =
      .ok [{ id := "general", name := "General", created_at := 0 }] ∧
    (([] : List MsgItem).filter (fun m => m.room_id == "general")).length < 25 ∧
    (∃ message msgs',
      post_message_handler [] [] []
          { room_id := "general", user_id := "u1", username := "bob",
            message_text := "hello", client_message_id := some "k" } "m1" 0 =
        .ok (message, [{ id := "general", name := "General", created_at := 0 }],
             msgs') ∧
      ∃ resp, get_messages_handler msgs' "general" = .ok resp ∧
        ∃ m ∈ resp.messages,
          m.id = message.id ∧ m.username = message.username ∧
          m.message_text = message.message_text ∧
          m.client_message_id = message.client_message_id) := by
  have h := c8_roundtrip_amended [] []
    [{ id := "general", name := "General", created_at := 0 }] []
    { room_id := "general", user_id := "u1", username := "bob",
      message_text := "hello", client_message_id := some "k" } "m1" 0
    "general" "bob" "hello" (by decide) (by decide) (by decide) (by decide)
    (by decide)
  exact ⟨by decide, by decide, by decide, by decide, by decide, h⟩

end Swfl
